import Mathlib

/-!
Verification of the KG-PBO utility layer (`src/utils.py`).

The Python functions are shallowly embedded as pure Lean functions.
  * Tensors are modelled either as index functions `Nat → Nat → α`
    (with explicit dimensions) or as `List`s, matching row-major
    (C-contiguous) torch semantics; `reshape` keeps flat data and only
    reinterprets indices.
  * Python exceptions are modelled by `Except PyErr`.  A fall-through of
    an `if/elif` chain that leaves the result variable unassigned (so the
    subsequent use raises `UnboundLocalError`) is modelled by
    `PyErr.unboundLocal`; `torch.cat` on an empty list by `PyErr.catEmpty`;
    a negative dimension given to `torch.rand` by `PyErr.negativeDim`.
  * The global torch random generator is modelled by explicit state
    passing over an abstract generator interface `TorchRNG` (torch's
    generator is a deterministic function of its state).
-/

namespace KGPBO

/-- Error conditions raised by the embedded Python code. -/
inductive PyErr where
  | unboundLocal
  | catEmpty
  | negativeDim
  deriving DecidableEq, Repr

/-! ## Query Sampler: `generate_random_queries`

`torch.manual_seed` and `torch.rand` are external collaborators; they are
modelled by an abstract deterministic generator interface: `seedState s`
is the generator state produced by `torch.manual_seed(s)`, and
`rand st shape` returns the sampled tensor together with the advanced
state. -/

/-- Abstract model of the global torch random generator: seeding and
uniform sampling are deterministic functions of the generator state. -/
structure TorchRNG (σ : Type) (α : Type) where
  seedState : Int → σ
  rand : σ → List Nat → α × σ

/-- Model of `torch.rand(shape)`: torch rejects negative dimensions;
a shape containing zeros is legal and yields an empty tensor. -/
def torchRand {σ α : Type} (R : TorchRNG σ α) (st : σ) (shape : List Int) :
    Except PyErr (α × σ) :=
  if shape.all (fun z => decide (0 ≤ z)) then
    Except.ok (R.rand st (shape.map Int.toNat))
  else
    Except.error PyErr.negativeDim

/-- Embedding of `generate_random_queries` (utils.py lines 66-77).
Returns the result together with the final global generator state.
In the seeded branch the state is saved, the generator is reseeded, one
draw is made and the saved state is restored; there is no `try/finally`,
so if the draw itself fails the reseeded state is left in place. -/
def generate_random_queries {σ α : Type} (R : TorchRNG σ α)
    (num_queries batch_size input_dim : Int) (seed : Option Int) (st : σ) :
    Except PyErr α × σ :=
  match seed with
  | some s =>
    let old_state := st
    match torchRand R (R.seedState s) [num_queries, batch_size, input_dim] with
    | Except.ok (queries, _) => (Except.ok queries, old_state)
    | Except.error e => (Except.error e, R.seedState s)
  | none =>
    match torchRand R st [num_queries, batch_size, input_dim] with
    | Except.ok (queries, st2) => (Except.ok queries, st2)
    | Except.error e => (Except.error e, st)

/-- A concrete instance of the generator interface, used to evaluate the
embedding on concrete inputs. -/
def demoRNG : TorchRNG Nat Nat where
  seedState := fun s => s.toNat
  rand := fun st shape => (st + shape.sum, st + 1)

/-- C4: a seeded call is reproducible irrespective of the global generator
state at call time, and it restores the global state on exit, so an
unseeded draw made immediately afterwards behaves as if the seeded call
had never happened. -/
theorem generate_random_queries_seeded_reproducible_and_isolated
    {σ α : Type} (R : TorchRNG σ α) (s num_queries batch_size input_dim : Int)
    (hn : 0 < num_queries) (hb : 0 < batch_size) (hd : 0 < input_dim)
    (st1 st2 : σ) :
    (generate_random_queries R num_queries batch_size input_dim (some s) st1).1
      = (generate_random_queries R num_queries batch_size input_dim (some s) st2).1
    ∧ (generate_random_queries R num_queries batch_size input_dim (some s) st1).2 = st1
    ∧ ∀ shape : List Nat,
        R.rand (generate_random_queries R num_queries batch_size input_dim
          (some s) st1).2 shape = R.rand st1 shape := by
  have hall : ([num_queries, batch_size, input_dim].all (fun z => decide (0 ≤ z))) = true := by
    simp [List.all, hn.le, hb.le, hd.le]
  refine ⟨?_, ?_, ?_⟩ <;>
    simp [generate_random_queries, torchRand, hall]

/-- Witness for C4 at a concrete generator, seed and sizes, with two
different ambient generator states. -/
theorem generate_random_queries_seeded_reproducible_and_isolated_witness :
    (generate_random_queries demoRNG 1 2 3 (some 7) 0).1
      = (generate_random_queries demoRNG 1 2 3 (some 7) 5).1
    ∧ (generate_random_queries demoRNG 1 2 3 (some 7) 0).2 = 0
    ∧ ∀ shape : List Nat,
        demoRNG.rand (generate_random_queries demoRNG 1 2 3 (some 7) 0).2 shape
          = demoRNG.rand 0 shape :=
  generate_random_queries_seeded_reproducible_and_isolated demoRNG 7 1 2 3
    (by decide) (by decide) (by decide) 0 5

/-- C5 counterexample: an unseeded call does change the global generator
state (the draw itself advances it), so the claim that the state is left
unchanged is false. -/
theorem generate_random_queries_unseeded_changes_state :
    (generate_random_queries demoRNG 1 1 1 none 0).2 ≠ 0 := by decide

/-- C5 amended: with `seed = None` the function performs no save/restore
of the generator state; it is exactly one `torch.rand` draw on the global
generator, whose output and state advancement it passes through. -/
theorem generate_random_queries_unseeded_is_single_draw
    {σ α : Type} (R : TorchRNG σ α) (num_queries batch_size input_dim : Int)
    (hn : 0 ≤ num_queries) (hb : 0 ≤ batch_size) (hd : 0 ≤ input_dim) (st : σ) :
    generate_random_queries R num_queries batch_size input_dim none st
      = (Except.ok (R.rand st
            [num_queries.toNat, batch_size.toNat, input_dim.toNat]).1,
         (R.rand st [num_queries.toNat, batch_size.toNat, input_dim.toNat]).2) := by
  have hall : ([num_queries, batch_size, input_dim].all (fun z => decide (0 ≤ z))) = true := by
    simp [List.all, hn, hb, hd]
  simp [generate_random_queries, torchRand, hall]

/-- Witness for the amended C5 at a concrete generator and sizes. -/
theorem generate_random_queries_unseeded_is_single_draw_witness :
    generate_random_queries demoRNG 1 1 1 none 0
      = (Except.ok (demoRNG.rand 0 [1, 1, 1]).1, (demoRNG.rand 0 [1, 1, 1]).2) :=
  generate_random_queries_unseeded_is_single_draw demoRNG 1 1 1
    (by decide) (by decide) (by decide) 0

/-- C6 counterexample: with `num_queries = 0` (a non-positive size) the
call succeeds and returns an empty query tensor; no invalid-argument
failure occurs. -/
theorem generate_random_queries_zero_size_succeeds :
    (generate_random_queries demoRNG 0 2 1 none 0).1 = Except.ok 3 := rfl

/-- C6 amended: `generate_random_queries` performs no size validation of
its own; any non-negative sizes (zero included) are accepted and the call
returns a tensor of that shape, while a negative size makes the underlying
array engine (`torch.rand`) fail. -/
theorem generate_random_queries_no_size_validation
    {σ α : Type} (R : TorchRNG σ α) (num_queries batch_size input_dim : Int)
    (seed : Option Int) (st : σ) :
    (0 ≤ num_queries → 0 ≤ batch_size → 0 ≤ input_dim →
      ∃ q, (generate_random_queries R num_queries batch_size input_dim seed st).1
        = Except.ok q)
    ∧ ((num_queries < 0 ∨ batch_size < 0 ∨ input_dim < 0) →
      (generate_random_queries R num_queries batch_size input_dim seed st).1
        = Except.error PyErr.negativeDim) := by
  constructor
  · intro hn hb hd
    have hall : ([num_queries, batch_size, input_dim].all (fun z => decide (0 ≤ z))) = true := by
      simp [List.all, hn, hb, hd]
    cases seed <;> simp [generate_random_queries, torchRand, hall]
  · intro hneg
    have hall : ([num_queries, batch_size, input_dim].all (fun z => decide (0 ≤ z))) = false := by
      rcases hneg with h | h | h <;> simp [List.all] <;> omega
    cases seed <;> simp [generate_random_queries, torchRand, hall]

/-- Witness for the amended C6: a zero size succeeds, a negative size
fails in the array engine. -/
theorem generate_random_queries_no_size_validation_witness :
    (∃ q, (generate_random_queries demoRNG 0 2 1 none 0).1 = Except.ok q)
    ∧ (generate_random_queries demoRNG (-1) 2 1 none 0).1
        = Except.error PyErr.negativeDim :=
  ⟨(generate_random_queries_no_size_validation demoRNG 0 2 1 none 0).1
      (by decide) (by decide) (by decide),
   (generate_random_queries_no_size_validation demoRNG (-1) 2 1 none 0).2
      (Or.inl (by decide))⟩

/-! ## Objective Evaluator: `get_obj_vals`

The query tensor of shape `(N, B, d)` is modelled by its dimensions `N`,
`B` and an index function `Q : Nat → Nat → P` giving the point (row of
length `d`, kept abstract as `P`) at query `i`, item `j`.  Row-major
`reshape` to `(N*B, d)` sends flat index `k` to point `Q (k / B) (k % B)`;
the reshape of the result back to `(N, B)` reads entry `(i, j)` at flat
index `i * B + j`. -/

/-- Embedding of `get_obj_vals` (utils.py lines 80-86): flatten the
leading `(N, B)` dimensions, apply `obj_func` once to all `N*B` points,
and keep the resulting flat value list (its entry `(i, j)` lives at flat
index `i * B + j`, which is exactly the row-major reshape to `(N, B)`). -/
def get_obj_vals {P V : Type} (N B : Nat) (Q : Nat → Nat → P)
    (obj_func : List P → List V) : List V :=
  obj_func ((List.range (N * B)).map (fun k => Q (k / B) (k % B)))

/-- C7: when the objective function acts as a fixed pure per-point map
`g` on each row, `get_obj_vals` has `N*B` entries (shape `(N, B)`) and
its entry `(i, j)` (flat index `i*B + j`) equals `g` applied to point
`(i, j)` of the query tensor. -/
theorem get_obj_vals_pointwise {P V : Type} (N B : Nat) (Q : Nat → Nat → P)
    (g : P → V) (obj_func : List P → List V)
    (hf : ∀ xs, obj_func xs = xs.map g) (i j : Nat) (hi : i < N) (hj : j < B) :
    (get_obj_vals N B Q obj_func).length = N * B
    ∧ (get_obj_vals N B Q obj_func)[i * B + j]? = some (g (Q i j)) := by
  have hB : 0 < B := Nat.lt_of_le_of_lt (Nat.zero_le j) hj
  have hlt : i * B + j < N * B := by
    calc i * B + j < i * B + B := by omega
    _ = (i + 1) * B := by ring
    _ ≤ N * B := Nat.mul_le_mul_right B hi
  have hdiv : (i * B + j) / B = i := by
    rw [Nat.mul_comm i B, Nat.mul_add_div hB, Nat.div_eq_of_lt hj, Nat.add_zero]
  have hmod : (i * B + j) % B = j := by
    rw [Nat.mul_comm i B, Nat.mul_add_mod, Nat.mod_eq_of_lt hj]
  constructor
  · simp [get_obj_vals, hf]
  · simp [get_obj_vals, hf, List.getElem?_map, List.getElem?_range hlt, hdiv, hmod]

/-- Witness for C7 on a concrete 2-by-2 query batch with points in `Int`
and objective `g x = x + 10`. -/
theorem get_obj_vals_pointwise_witness :
    (get_obj_vals 2 2 (fun i j => (10 * i + j : Int))
        (fun xs => xs.map (fun x => x + 10))).length = 2 * 2
    ∧ (get_obj_vals 2 2 (fun i j => (10 * i + j : Int))
        (fun xs => xs.map (fun x => x + 10)))[1 * 2 + 1]? = some ((10 * 1 + 1 : Int) + 10) :=
  get_obj_vals_pointwise 2 2 (fun i j => (10 * i + j : Int)) (fun x => x + 10)
    (fun xs => xs.map (fun x => x + 10)) (fun _ => rfl) 1 1 (by decide) (by decide)

/-! ## Response Simulator: `corrupt_obj_vals`, `generate_responses`

The objective-value tensor of shape `(N, B)` is modelled as a list of `N`
rows.  Sampling from `torch.distributions.Normal`/`Gumbel` is an external
collaborator; it is modelled by an abstract per-entry sample table
`NoiseSource` (scale and entry position determine the sample drawn). -/

/-- Abstract model of the noise samples drawn by
`Normal(0, noise_level).sample` and `Gumbel(0, noise_level).sample`:
the entry at row `i`, column `j` of the sampled tensor. -/
structure NoiseSource (V : Type) where
  normal : V → Nat → Nat → V
  gumbel : V → Nat → Nat → V

/-- Embedding of `corrupt_obj_vals` (utils.py lines 96-107).  The final
`elif` chain has no `else`; an unrecognized `noise_type` leaves
`corrupted_obj_vals` unassigned and the function raises
`UnboundLocalError` when returning it. -/
def corrupt_obj_vals {V : Type} [Add V] (ns : NoiseSource V)
    (obj_vals : List (List V)) (noise_type : String) (noise_level : V) :
    Except PyErr (List (List V)) :=
  if noise_type = "noiseless" then
    Except.ok obj_vals
  else if noise_type = "probit" then
    Except.ok (obj_vals.mapIdx (fun i row =>
      row.mapIdx (fun j v => v + ns.normal noise_level i j)))
  else if noise_type = "logit" then
    Except.ok (obj_vals.mapIdx (fun i row =>
      row.mapIdx (fun j v => v + ns.gumbel noise_level i j)))
  else
    Except.error PyErr.unboundLocal

/-- Model of `torch.argmax(·, dim=-1)` on one row, an external
collaborator: torch documents that the index of the first maximal value
is returned. -/
def argmaxRow {V : Type} [LinearOrder V] (l : List V) : Nat :=
  l.findIdx (fun v => decide (∀ x ∈ l, x ≤ v))

/-- Embedding of `generate_responses` (utils.py lines 89-93): corrupt the
objective values, then take the per-row argmax. -/
def generate_responses {V : Type} [Add V] [LinearOrder V] (ns : NoiseSource V)
    (obj_vals : List (List V)) (noise_type : String) (noise_level : V) :
    Except PyErr (List Nat) :=
  (corrupt_obj_vals ns obj_vals noise_type noise_level).map
    (fun corrupted => corrupted.map argmaxRow)

/-- A nonempty list has a maximal element. -/
theorem exists_le_max {V : Type} [LinearOrder V] :
    ∀ l : List V, l ≠ [] → ∃ m ∈ l, ∀ x ∈ l, x ≤ m := by
  intro l
  induction l with
  | nil => intro h; exact absurd rfl h
  | cons a t ih =>
    intro _
    cases t with
    | nil =>
      refine ⟨a, List.mem_singleton_self a, ?_⟩
      intro x hx
      rw [List.mem_singleton.mp hx]
    | cons b u =>
      obtain ⟨m, hm, hmax⟩ := ih (by simp)
      rcases le_total a m with h | h
      · refine ⟨m, List.mem_cons_of_mem a hm, ?_⟩
        intro x hx
        rcases List.mem_cons.mp hx with rfl | hx
        · exact h
        · exact hmax x hx
      · refine ⟨a, List.mem_cons_self a _, ?_⟩
        intro x hx
        rcases List.mem_cons.mp hx with rfl | hx
        · exact le_refl x
        · exact le_trans (hmax x hx) h

/-- On a nonempty row, `argmaxRow` is an in-range index of a maximal
entry, and every entry strictly before it is strictly below that
maximum (first-occurrence / lowest-index tie-breaking). -/
theorem argmaxRow_spec {V : Type} [LinearOrder V] (l : List V) (hl : l ≠ []) :
    argmaxRow l < l.length
    ∧ ∃ m, l[argmaxRow l]? = some m
        ∧ (∀ (k : Nat) (x : V), l[k]? = some x → x ≤ m)
        ∧ (∀ (k : Nat) (x : V), k < argmaxRow l → l[k]? = some x → x < m) := by
  obtain ⟨m0, hm0, hmax0⟩ := exists_le_max l hl
  have hlt : argmaxRow l < l.length := by
    apply List.findIdx_lt_length_of_exists
    exact ⟨m0, hm0, by simpa using hmax0⟩
  have hw : List.findIdx (fun v => decide (∀ x ∈ l, x ≤ v)) l < l.length := hlt
  have hp : ∀ x ∈ l, x ≤ l.get ⟨argmaxRow l, hlt⟩ := by
    have h := @List.findIdx_getElem V (fun v => decide (∀ x ∈ l, x ≤ v)) l hw
    simpa [argmaxRow, List.get_eq_getElem] using h
  have hmget : l[argmaxRow l]? = some (l.get ⟨argmaxRow l, hlt⟩) := by
    simp [List.getElem?_eq_getElem hlt, List.get_eq_getElem]
  refine ⟨hlt, l.get ⟨argmaxRow l, hlt⟩, hmget, ?_, ?_⟩
  · intro k x hk
    have hkl : k < l.length := by
      by_contra hkn
      rw [List.getElem?_eq_none (Nat.le_of_not_lt hkn)] at hk
      exact Option.noConfusion hk
    have hx : l.get ⟨k, hkl⟩ = x := by
      have hg := List.getElem?_eq_getElem hkl
      rw [hg] at hk
      simpa [List.get_eq_getElem] using Option.some.inj hk
    exact hx ▸ hp _ (List.get_mem l k hkl)
  · intro k x hklt hk
    have hkl : k < l.length := Nat.lt_trans hklt hlt
    have hx : l.get ⟨k, hkl⟩ = x := by
      have hg := List.getElem?_eq_getElem hkl
      rw [hg] at hk
      simpa [List.get_eq_getElem] using Option.some.inj hk
    have hklt2 : k < List.findIdx (fun v => decide (∀ x ∈ l, x ≤ v)) l := hklt
    have hnotp := @List.not_of_lt_findIdx V (fun v => decide (∀ x ∈ l, x ≤ v)) l k hklt2
    have hnot : ¬ ∀ y ∈ l, y ≤ l.get ⟨k, hkl⟩ := by
      intro hall
      rw [decide_eq_false_iff_not] at hnotp
      exact hnotp (by simpa [List.get_eq_getElem] using hall)
    push_neg at hnot
    obtain ⟨y, hy, hxy⟩ := hnot
    exact hx ▸ lt_of_lt_of_le hxy (hp y hy)

/-- Fixed noise-sample table over `Int`, used to evaluate the embedding
on concrete inputs. -/
def zeroNoise : NoiseSource Int where
  normal := fun _ _ _ => 0
  gumbel := fun _ _ _ => 0

/-- C3 (the claim's universality, with the actual error): for every
`noise_type` other than the three recognized ones, regardless of the
values and of `noise_level`, `corrupt_obj_vals` falls through its
`if/elif` chain and raises `UnboundLocalError` (not an explicit
invalid-argument error), and `generate_responses` propagates that
failure. -/
theorem corrupt_obj_vals_fall_through {V : Type} [Add V] [LinearOrder V]
    (ns : NoiseSource V) (obj_vals : List (List V)) (noise_type : String)
    (noise_level : V) (h1 : noise_type ≠ "noiseless")
    (h2 : noise_type ≠ "probit") (h3 : noise_type ≠ "logit") :
    corrupt_obj_vals ns obj_vals noise_type noise_level
      = Except.error PyErr.unboundLocal
    ∧ generate_responses ns obj_vals noise_type noise_level
      = Except.error PyErr.unboundLocal := by
  constructor <;>
    simp [corrupt_obj_vals, generate_responses, Except.map, h1, h2, h3]

/-- Witness for C3 at the concrete failing input `noise_type="uniform"`. -/
theorem corrupt_obj_vals_fall_through_witness :
    corrupt_obj_vals zeroNoise [[(0 : Int)]] "uniform" 1
      = Except.error PyErr.unboundLocal
    ∧ generate_responses zeroNoise [[(0 : Int)]] "uniform" 1
      = Except.error PyErr.unboundLocal :=
  corrupt_obj_vals_fall_through zeroNoise [[(0 : Int)]] "uniform" 1
    (by decide) (by decide) (by decide)

/-- C8: with `noise_type="noiseless"` the corrupted values are returned
bit-identical to the input for any `noise_level`, and the responses are
the per-row argmax of the uncorrupted values: an in-range index whose
entry is maximal in its row, with every entry before it strictly smaller
(ties broken by the lowest index). -/
theorem noiseless_identity_and_argmax {V : Type} [Add V] [LinearOrder V]
    (ns : NoiseSource V) (obj_vals : List (List V)) (noise_level : V)
    (hrows : ∀ row ∈ obj_vals, row ≠ []) :
    corrupt_obj_vals ns obj_vals "noiseless" noise_level = Except.ok obj_vals
    ∧ generate_responses ns obj_vals "noiseless" noise_level
        = Except.ok (obj_vals.map argmaxRow)
    ∧ ∀ row ∈ obj_vals, argmaxRow row < row.length
        ∧ ∃ m, row[argmaxRow row]? = some m
            ∧ (∀ (k : Nat) (x : V), row[k]? = some x → x ≤ m)
            ∧ (∀ (k : Nat) (x : V), k < argmaxRow row → row[k]? = some x → x < m) := by
  refine ⟨by simp [corrupt_obj_vals], by simp [generate_responses, corrupt_obj_vals, Except.map], ?_⟩
  intro row hrow
  exact argmaxRow_spec row (hrows row hrow)

/-- Witness for C8 on a concrete two-query value tensor with a tie in the
second row. -/
theorem noiseless_identity_and_argmax_witness :
    corrupt_obj_vals zeroNoise [[(1 : Int), 3, 2], [5, 5, 1]] "noiseless" 0
      = Except.ok [[(1 : Int), 3, 2], [5, 5, 1]]
    ∧ generate_responses zeroNoise [[(1 : Int), 3, 2], [5, 5, 1]] "noiseless" 0
      = Except.ok ([[(1 : Int), 3, 2], [5, 5, 1]].map argmaxRow)
    ∧ ∀ row ∈ [[(1 : Int), 3, 2], [5, 5, 1]], argmaxRow row < row.length
        ∧ ∃ m, row[argmaxRow row]? = some m
            ∧ (∀ (k : Nat) (x : Int), row[k]? = some x → x ≤ m)
            ∧ (∀ (k : Nat) (x : Int), k < argmaxRow row → row[k]? = some x → x < m) :=
  noiseless_identity_and_argmax zeroNoise [[(1 : Int), 3, 2], [5, 5, 1]] 0
    (by decide)

/-! ## Comparison-Data Encoder: `training_data_for_pairwise_gp`

The query tensor is again `N`, `B` and an index function `Q`; a point is
kept abstract.  The Python loop appends, for each query `i` in order, all
`B` points (item order) to `datapoints`, and for each item `j ≠ resp i`
the pair `(B*i + resp i, B*i + j)` to `comparisons`; the two lists are
then concatenated with `torch.cat`, which raises on an empty list. -/

/-- The `datapoints` list built by the loop of
`training_data_for_pairwise_gp`: all points, query-major, item-minor. -/
def trainingDatapoints {P : Type} (N B : Nat) (Q : Nat → Nat → P) : List P :=
  (List.range N).flatMap (fun i => (List.range B).map (fun j => Q i j))

/-- The `comparisons` list built by that loop: for each query `i` in
order, for each item `j` in order with `j ≠ resp i`, the pair
`(B*i + resp i, B*i + j)`. -/
def trainingComparisons (N B : Nat) (resp : Nat → Nat) : List (Nat × Nat) :=
  (List.range N).flatMap (fun i =>
    ((List.range B).filter (fun j => decide (j ≠ resp i))).map
      (fun j => (B * i + resp i, B * i + j)))

/-- Embedding of `training_data_for_pairwise_gp` (utils.py lines
110-126).  `torch.cat` on an empty list raises, modelled by
`PyErr.catEmpty`; `datapoints` is concatenated first. -/
def training_data_for_pairwise_gp {P : Type} (N B : Nat) (Q : Nat → Nat → P)
    (resp : Nat → Nat) : Except PyErr (List P × List (Nat × Nat)) :=
  if (trainingDatapoints N B Q).isEmpty then Except.error PyErr.catEmpty
  else if (trainingComparisons N B resp).isEmpty then Except.error PyErr.catEmpty
  else Except.ok (trainingDatapoints N B Q, trainingComparisons N B resp)

/-- Indexing a flattened list of uniform-length blocks: entry `i*B + j`
of the flattened list is entry `j` of block `i`. -/
theorem flatten_getElem_uniform {X : Type} (B : Nat) :
    ∀ (L : List (List X)), (∀ l ∈ L, l.length = B) → ∀ i j : Nat, j < B →
      L.flatten[i * B + j]? = L[i]?.bind (fun l => l[j]?) := by
  intro L
  induction L with
  | nil => intro _ i j _; simp
  | cons hd tl ih =>
    intro hL i j hj
    have hhd : hd.length = B := hL hd (List.mem_cons_self hd tl)
    cases i with
    | zero =>
      simp only [List.flatten_cons, Nat.zero_mul, Nat.zero_add]
      rw [List.getElem?_append, if_pos (by omega)]
      simp
    | succ i' =>
      simp only [List.flatten_cons]
      rw [List.getElem?_append, if_neg (by push_neg; calc
        hd.length = B := hhd
        _ ≤ (i' + 1) * B + j := by
          calc B = 1 * B := (Nat.one_mul B).symm
          _ ≤ (i' + 1) * B := Nat.mul_le_mul_right B (by omega)
          _ ≤ (i' + 1) * B + j := Nat.le_add_right _ _)]
      have harith : (i' + 1) * B + j - hd.length = i' * B + j := by
        rw [hhd]
        have : (i' + 1) * B = i' * B + B := by ring
        omega
      rw [harith, ih (fun l hl => hL l (List.mem_cons_of_mem hd hl)) i' j hj]
      simp

/-- The datapoints list has exactly `N*B` rows. -/
theorem trainingDatapoints_length {P : Type} (N B : Nat) (Q : Nat → Nat → P) :
    (trainingDatapoints N B Q).length = N * B := by
  rw [trainingDatapoints, List.length_flatMap]
  have hconst : List.map (List.length ∘ fun i => (List.range B).map (fun j => Q i j))
      (List.range N) = List.replicate N B := by
    rw [show (List.length ∘ fun i => (List.range B).map (fun j => Q i j))
        = Function.const Nat B from funext (fun i => by simp [Function.const])]
    rw [List.map_const, List.length_range]
  rw [hconst, List.sum_replicate, smul_eq_mul]

/-- Row `i*B + j` of the datapoints list is point `j` of query `i`. -/
theorem trainingDatapoints_getElem {P : Type} (N B : Nat) (Q : Nat → Nat → P)
    (i j : Nat) (hi : i < N) (hj : j < B) :
    (trainingDatapoints N B Q)[i * B + j]? = some (Q i j) := by
  rw [trainingDatapoints, List.flatMap_def]
  rw [flatten_getElem_uniform B _ (by
    intro l hl
    obtain ⟨a, _, rfl⟩ := List.mem_map.mp hl
    simp) i j hj]
  simp [List.getElem?_map, List.getElem?_range hi, List.getElem?_range hj]

/-- Structure of the non-winner item indices of one query: the items
`0, …, r-1` in order, then the items `r+1, …, B-1` in order. -/
theorem filter_ne_range (B r : Nat) (hr : r < B) :
    (List.range B).filter (fun j => decide (j ≠ r))
      = List.range r ++ (List.range (B - (r + 1))).map (fun x => (r + 1) + x) := by
  have hB : B = (r + 1) + (B - (r + 1)) := by omega
  conv_lhs => rw [hB]
  rw [List.range_add, List.filter_append]
  congr 1
  · rw [List.range_succ, List.filter_append]
    have h1 : (List.range r).filter (fun j => decide (j ≠ r)) = List.range r := by
      apply List.filter_eq_self.mpr
      intro a ha
      have : a < r := List.mem_range.mp ha
      simp
      omega
    have h2 : ([r].filter (fun j => decide (j ≠ r))) = [] := by simp
    rw [h1, h2, List.append_nil]
  · rw [List.filter_map]
    have h3 : (List.range (B - (r + 1))).filter
        ((fun j => decide (j ≠ r)) ∘ (fun x => (r + 1) + x)) = List.range (B - (r + 1)) := by
      apply List.filter_eq_self.mpr
      intro a _
      simp [Function.comp]
      omega
    rw [h3]

/-- Each query with an in-range response contributes exactly `B - 1`
non-winner items. -/
theorem filter_ne_range_length (B r : Nat) (hr : r < B) :
    ((List.range B).filter (fun j => decide (j ≠ r))).length = B - 1 := by
  rw [filter_ne_range B r hr]
  simp
  omega

/-- The `c`-th non-winner item of a query with winner `r` is `c` when
`c < r` and `c + 1` otherwise. -/
theorem filter_ne_range_getElem (B r c : Nat) (hr : r < B) (hc : c < B - 1) :
    ((List.range B).filter (fun j => decide (j ≠ r)))[c]?
      = some (if c < r then c else c + 1) := by
  rw [filter_ne_range B r hr, List.getElem?_append]
  simp only [List.length_range]
  by_cases h : c < r
  · rw [if_pos h, if_pos h]
    exact List.getElem?_range h
  · rw [if_neg h, if_neg h]
    have hcr : c - r < B - (r + 1) := by omega
    rw [List.getElem?_map, List.getElem?_range hcr]
    have harith : r + 1 + (c - r) = c + 1 := by omega
    simp [harith]

/-- The comparisons list has exactly `N*(B-1)` rows when responses are
in range. -/
theorem trainingComparisons_length (N B : Nat) (resp : Nat → Nat)
    (hresp : ∀ i, i < N → resp i < B) :
    (trainingComparisons N B resp).length = N * (B - 1) := by
  rw [trainingComparisons, List.length_flatMap]
  have hconst : List.map (List.length ∘ fun i =>
        ((List.range B).filter (fun j => decide (j ≠ resp i))).map
          (fun j => (B * i + resp i, B * i + j))) (List.range N)
      = List.replicate N (B - 1) := by
    rw [List.eq_replicate_iff]
    refine ⟨by simp, ?_⟩
    intro b hb
    obtain ⟨i, hi, rfl⟩ := List.mem_map.mp hb
    have hri : resp i < B := hresp i (List.mem_range.mp hi)
    simp only [Function.comp_apply, List.length_map]
    exact filter_ne_range_length B (resp i) hri
  rw [hconst, List.sum_replicate, smul_eq_mul]

/-- Row `i*(B-1) + c` of the comparisons list: the winner's global index
paired with the `c`-th non-winner of query `i` (query-major order,
item order, winner skipped). -/
theorem trainingComparisons_getElem (N B : Nat) (resp : Nat → Nat)
    (hresp : ∀ i, i < N → resp i < B) (i c : Nat) (hi : i < N) (hc : c < B - 1) :
    (trainingComparisons N B resp)[i * (B - 1) + c]?
      = some (B * i + resp i, B * i + (if c < resp i then c else c + 1)) := by
  rw [trainingComparisons, List.flatMap_def]
  rw [flatten_getElem_uniform (B - 1) _ (by
    intro l hl
    obtain ⟨a, ha, rfl⟩ := List.mem_map.mp hl
    have hra : resp a < B := hresp a (List.mem_range.mp ha)
    simp only [List.length_map]
    exact filter_ne_range_length B (resp a) hra) i c hc]
  rw [List.getElem?_map, List.getElem?_range hi]
  simp only [Option.map_some', Option.some_bind]
  rw [List.getElem?_map, filter_ne_range_getElem B (resp i) c (hresp i hi) hc]
  simp only [Option.map_some']

/-- Comparison-pair bookkeeping: no self-pairs, all indices in range. -/
theorem trainingComparisons_mem (N B : Nat) (resp : Nat → Nat)
    (hresp : ∀ i, i < N → resp i < B) :
    ∀ p ∈ trainingComparisons N B resp,
      p.1 ≠ p.2 ∧ p.1 < N * B ∧ p.2 < N * B := by
  intro p hp
  rw [trainingComparisons] at hp
  obtain ⟨i, hi, hp⟩ := List.mem_flatMap.mp hp
  obtain ⟨j, hj, rfl⟩ := List.mem_map.mp hp
  obtain ⟨hjB, hjr⟩ := List.mem_filter.mp hj
  have hiN : i < N := List.mem_range.mp hi
  have hjB' : j < B := List.mem_range.mp hjB
  have hjr' : j ≠ resp i := by simpa using hjr
  have hri : resp i < B := hresp i hiN
  have hbound : ∀ x : Nat, x < B → B * i + x < N * B := by
    intro x hx
    calc B * i + x < B * i + B := by omega
    _ = B * (i + 1) := by ring
    _ ≤ B * N := Nat.mul_le_mul_left B hiN
    _ = N * B := Nat.mul_comm B N
  exact ⟨by simp; omega, hbound (resp i) hri, hbound j hjB'⟩

/-- With at least one query and one item per query, the datapoints list
is nonempty, so its `torch.cat` succeeds. -/
theorem trainingDatapoints_not_empty {P : Type} (N B : Nat) (Q : Nat → Nat → P)
    (hN : 1 ≤ N) (hB : 1 ≤ B) : (trainingDatapoints N B Q).isEmpty = false := by
  have hlen := trainingDatapoints_length N B Q
  rw [List.isEmpty_eq_false_iff_exists_mem]
  have hpos : 0 < (trainingDatapoints N B Q).length := by
    rw [hlen]
    exact Nat.mul_pos hN hB
  exact ⟨_, List.getElem_mem hpos⟩

/-- With at least one query and two items per query, the comparisons
list is nonempty (whatever the responses are), so its `torch.cat`
succeeds. -/
theorem trainingComparisons_not_empty (N B : Nat) (resp : Nat → Nat)
    (hN : 1 ≤ N) (hB : 2 ≤ B) :
    (trainingComparisons N B resp).isEmpty = false := by
  rw [List.isEmpty_eq_false_iff_exists_mem]
  refine ⟨(B * 0 + resp 0, B * 0 + (if resp 0 = 0 then 1 else 0)), ?_⟩
  rw [trainingComparisons]
  apply List.mem_flatMap.mpr
  refine ⟨0, List.mem_range.mpr (by omega), ?_⟩
  apply List.mem_map.mpr
  refine ⟨(if resp 0 = 0 then 1 else 0), ?_, rfl⟩
  apply List.mem_filter.mpr
  constructor
  · apply List.mem_range.mpr
    split <;> omega
  · split <;> rename_i h <;> simp <;> omega

/-- On inputs meeting the precondition `N ≥ 1`, `B ≥ 2`, the encoder
returns successfully with the two constructed lists. -/
theorem training_data_succeeds {P : Type} (N B : Nat) (Q : Nat → Nat → P)
    (resp : Nat → Nat) (hN : 1 ≤ N) (hB : 2 ≤ B) :
    training_data_for_pairwise_gp N B Q resp
      = Except.ok (trainingDatapoints N B Q, trainingComparisons N B resp) := by
  rw [training_data_for_pairwise_gp,
    trainingDatapoints_not_empty N B Q hN (by omega),
    trainingComparisons_not_empty N B resp hN hB]
  simp

/-- C1: for `N ≥ 1`, `B ≥ 2` and responses in `[0, B)`, the encoder
returns datapoints of exactly `N*B` rows with row `i*B + j` equal to
point `j` of query `i`, and comparisons of exactly `N*(B-1)` rows,
grouped by query in query order and then by item order skipping the
winner: entry `i*(B-1) + c` pairs the winner's global index
`B*i + resp i` with the `c`-th non-winner of query `i`; no pair has
equal components and every index is a valid datapoints row. -/
theorem training_data_for_pairwise_gp_spec {P : Type} (N B : Nat)
    (Q : Nat → Nat → P) (resp : Nat → Nat)
    (hN : 1 ≤ N) (hB : 2 ≤ B) (hresp : ∀ i, i < N → resp i < B) :
    training_data_for_pairwise_gp N B Q resp
      = Except.ok (trainingDatapoints N B Q, trainingComparisons N B resp)
    ∧ (trainingDatapoints N B Q).length = N * B
    ∧ (∀ i j : Nat, i < N → j < B →
        (trainingDatapoints N B Q)[i * B + j]? = some (Q i j))
    ∧ (trainingComparisons N B resp).length = N * (B - 1)
    ∧ (∀ i c : Nat, i < N → c < B - 1 →
        (trainingComparisons N B resp)[i * (B - 1) + c]?
          = some (B * i + resp i, B * i + (if c < resp i then c else c + 1)))
    ∧ (∀ p ∈ trainingComparisons N B resp,
        p.1 ≠ p.2 ∧ p.1 < N * B ∧ p.2 < N * B) :=
  ⟨training_data_succeeds N B Q resp hN hB,
   trainingDatapoints_length N B Q,
   fun i j hi hj => trainingDatapoints_getElem N B Q i j hi hj,
   trainingComparisons_length N B resp hresp,
   fun i c hi hc => trainingComparisons_getElem N B resp hresp i c hi hc,
   trainingComparisons_mem N B resp hresp⟩

/-- Witness for C1 on a concrete batch: two queries of two items in one
dimension, winners `1` and `0`. -/
theorem training_data_for_pairwise_gp_spec_witness :
    training_data_for_pairwise_gp 2 2 (fun i j => (2 * i + j : Int))
        (fun i => if i = 0 then 1 else 0)
      = Except.ok (trainingDatapoints 2 2 (fun i j => (2 * i + j : Int)),
          trainingComparisons 2 2 (fun i => if i = 0 then 1 else 0))
    ∧ (trainingDatapoints 2 2 (fun i j => (2 * i + j : Int))).length = 2 * 2
    ∧ (∀ i j : Nat, i < 2 → j < 2 →
        (trainingDatapoints 2 2 (fun i j => (2 * i + j : Int)))[i * 2 + j]?
          = some (2 * i + j : Int))
    ∧ (trainingComparisons 2 2 (fun i => if i = 0 then 1 else 0)).length = 2 * (2 - 1)
    ∧ (∀ i c : Nat, i < 2 → c < 2 - 1 →
        (trainingComparisons 2 2 (fun i => if i = 0 then 1 else 0))[i * (2 - 1) + c]?
          = some (2 * i + (if i = 0 then 1 else 0),
              2 * i + (if c < (if i = 0 then 1 else 0) then c else c + 1)))
    ∧ (∀ p ∈ trainingComparisons 2 2 (fun i => if i = 0 then 1 else 0),
        p.1 ≠ p.2 ∧ p.1 < 2 * 2 ∧ p.2 < 2 * 2) :=
  training_data_for_pairwise_gp_spec 2 2 (fun i j => (2 * i + j : Int))
    (fun i => if i = 0 then 1 else 0) (by decide) (by decide)
    (by intro i _; by_cases h : i = 0 <;> simp [h])

/-- C10 counterexample: with `B = 1` and the (out-of-range) response `1`,
the single query does contribute a comparison pair, the comparison list
is nonempty, and the call returns successfully instead of failing. -/
theorem training_data_batch_one_invalid_response_succeeds :
    training_data_for_pairwise_gp 1 1 (fun _ _ => (0 : Int)) (fun _ => 1)
      = Except.ok ([(0 : Int)], [(1, 0)]) := rfl

/-- C10 amended: with `B = 1` and any response array that is valid for
that batch size (every entry in `[0, 1)`, i.e. zero), no query
contributes a comparison pair and `torch.cat` of the empty comparison
list raises, so the call fails for every number of queries; callers must
satisfy `B ≥ 2` to obtain a result. -/
theorem training_data_batch_one_fails {P : Type} (N : Nat) (Q : Nat → Nat → P)
    (resp : Nat → Nat) (hresp : ∀ i, i < N → resp i = 0) :
    training_data_for_pairwise_gp N 1 Q resp = Except.error PyErr.catEmpty := by
  cases N with
  | zero =>
    rw [training_data_for_pairwise_gp]
    simp [trainingDatapoints]
  | succ n =>
    have hcmp : trainingComparisons (n + 1) 1 resp = [] := by
      rw [trainingComparisons]
      apply List.flatMap_eq_nil_iff.mpr
      intro i hi
      have h0 : resp i = 0 := hresp i (List.mem_range.mp hi)
      simp [h0, List.range_succ]
    rw [training_data_for_pairwise_gp,
      trainingDatapoints_not_empty (n + 1) 1 Q (by omega) (by omega), hcmp]
    simp

/-- Witness for the amended C10: one single-item query with the only
valid response. -/
theorem training_data_batch_one_fails_witness :
    training_data_for_pairwise_gp 1 1 (fun _ _ => (0 : Int)) (fun _ => 0)
      = Except.error PyErr.catEmpty :=
  training_data_batch_one_fails 1 (fun _ _ => (0 : Int)) (fun _ => 0)
    (fun _ _ => rfl)

/-! ## Model Fitter: `fit_model`

`PairwiseGP`, `PairwiseLaplaceMarginalLogLikelihood`, `fit_gpytorch_model`
and the two likelihood classes are external collaborators; the fitted
model is modelled by an opaque value recording the selected family, link
function and encoded training data.  The jitter constant and the
hyperparameter optimization are internal to those collaborators. -/

/-- The comparison-likelihood link selected by `fit_model`. -/
inductive PairwiseLik where
  | probit
  | logit
  deriving DecidableEq, Repr

/-- Opaque result of a successful `fit_model` call. -/
inductive FittedModel (P : Type) where
  | pairwiseGP (lik : PairwiseLik) (datapoints : List P)
      (comparisons : List (Nat × Nat))
  | pairwiseKernelVariationalGP

/-- Embedding of `fit_model` (utils.py lines 20-46).  The `if/elif`
chain on `model_type` has no `else`, so an unrecognized `model_type`
reaches `return model` with `model` unassigned (`UnboundLocalError`).
Inside the `"pairwise_gp"` branch, an unrecognized `likelihood` leaves
`likelihood_func` unassigned; the training data is still encoded first
(that call may itself raise), and the error surfaces only when
`PairwiseGP(..., likelihood=likelihood_func, ...)` evaluates its
arguments. -/
def fit_model {P : Type} (N B : Nat) (queries : Nat → Nat → P)
    (responses : Nat → Nat) (model_type : String) (likelihood : String) :
    Except PyErr (FittedModel P) :=
  if model_type = "pairwise_gp" then
    let likelihood_func : Option PairwiseLik :=
      if likelihood = "probit" then some PairwiseLik.probit
      else if likelihood = "logit" then some PairwiseLik.logit
      else none
    match training_data_for_pairwise_gp N B queries responses with
    | Except.error e => Except.error e
    | Except.ok (datapoints, comparisons) =>
      match likelihood_func with
      | some lik => Except.ok (FittedModel.pairwiseGP lik datapoints comparisons)
      | none => Except.error PyErr.unboundLocal
  else if model_type = "pairwise_kernel_variational_gp" then
    Except.ok FittedModel.pairwiseKernelVariationalGP
  else
    Except.error PyErr.unboundLocal

/-- C2 (documents the code bug): for any unrecognized `model_type` the
dispatch falls through and `fit_model` raises `UnboundLocalError` at
`return model` instead of an explicit invalid-argument error; and for
`model_type="pairwise_gp"` with an unrecognized `likelihood` the
training data is encoded first and the unassigned `likelihood_func`
then raises `UnboundLocalError` — again not an invalid-argument error,
and not before doing partial work. -/
theorem fit_model_unrecognized_unbound_local {P : Type} (N B : Nat)
    (queries : Nat → Nat → P) (responses : Nat → Nat)
    (model_type likelihood : String) :
    (model_type ≠ "pairwise_gp" → model_type ≠ "pairwise_kernel_variational_gp" →
      fit_model N B queries responses model_type likelihood
        = Except.error PyErr.unboundLocal)
    ∧ (likelihood ≠ "probit" → likelihood ≠ "logit" → 1 ≤ N → 2 ≤ B →
      fit_model N B queries responses "pairwise_gp" likelihood
        = Except.error PyErr.unboundLocal) := by
  constructor
  · intro h1 h2
    simp [fit_model, h1, h2]
  · intro h1 h2 hN hB
    have hok := training_data_succeeds N B queries responses hN hB
    simp [fit_model, h1, h2, hok]

/-- Witness for C2 at the concrete failing inputs
`model_type="random_forest"` and `likelihood="laplace"`. -/
theorem fit_model_unrecognized_unbound_local_witness :
    fit_model 1 2 (fun _ _ => (0 : Int)) (fun _ => 0) "random_forest" "logit"
      = Except.error PyErr.unboundLocal
    ∧ fit_model 1 2 (fun _ _ => (0 : Int)) (fun _ => 0) "pairwise_gp" "laplace"
      = Except.error PyErr.unboundLocal :=
  ⟨(fit_model_unrecognized_unbound_local 1 2 (fun _ _ => (0 : Int)) (fun _ => 0)
      "random_forest" "logit").1 (by decide) (by decide),
   (fit_model_unrecognized_unbound_local 1 2 (fun _ _ => (0 : Int)) (fun _ => 0)
      "pairwise_gp" "laplace").2 (by decide) (by decide) (by decide) (by decide)⟩

/-! ## Candidate Optimizer: `optimize_acqf_and_get_suggested_query`

`optimize_acqf` is an external collaborator; it is modelled as an opaque
function of the bounds and of the option/restart arguments the source
passes to it (the acquisition function is folded into it, since it is
captured opaquely).  A candidate tensor carries a `tracksGrad` flag
modelling torch gradient tracking; `.detach()` clears it.
`get_best_candidates` (botorch) is modelled from its documented
contract: it returns the candidate with the highest associated value.
The `torch.sort` of the acquisition values feeds only `print`
diagnostics and does not affect the returned value, so it is not
modelled. -/

/-- The arguments `optimize_acqf` is invoked with (q, restarts, raw
samples, and the `options` dictionary entries). -/
structure AcqOptArgs where
  q : Nat
  num_restarts : Nat
  raw_samples : Nat
  batch_limit : Nat
  init_batch_limit : Nat
  maxiter : Nat
  nonnegative : Bool
  return_best_only : Bool
  deriving DecidableEq, Repr

/-- A candidate batch tensor: its rows plus a gradient-tracking flag. -/
structure Cand (V : Type) where
  data : List (List V)
  tracksGrad : Bool
  deriving DecidableEq, Repr

/-- Model of `Tensor.detach()`: same values, gradient tracking cleared. -/
def detachCand {V : Type} (c : Cand V) : Cand V := ⟨c.data, false⟩

/-- Model of botorch's `get_best_candidates(batch_candidates,
batch_values)` from its documented contract: the candidate at the index
of the maximal value. -/
def get_best_candidates {V : Type} [LinearOrder V]
    (batch_candidates : List (Cand V)) (batch_values : List V) : Cand V :=
  batch_candidates.getD (argmaxRow batch_values) ⟨[], false⟩

/-- The exact argument record the source builds for `optimize_acqf`:
`q = batch_size`, `num_restarts = 4*input_dim`,
`raw_samples = 120*input_dim`, options `batch_limit`,
`init_batch_limit`, `maxiter=100`, `nonnegative=False`, and
`return_best_only=False`. -/
def acqCallArgs (batch_size batch_limit init_batch_limit input_dim : Nat) :
    AcqOptArgs :=
  ⟨batch_size, 4 * input_dim, 120 * input_dim, batch_limit,
    init_batch_limit, 100, false, false⟩

/-- The `optimize_acqf(...)` call made by the source, with
`input_dim = bounds.shape[1]`. -/
def optimize_acqf_call {V : Type}
    (optimize_acqf : List (V × V) → AcqOptArgs → List (Cand V) × List V)
    (bounds : List (V × V)) (batch_size batch_limit init_batch_limit : Nat) :
    List (Cand V) × List V :=
  optimize_acqf bounds
    (acqCallArgs batch_size batch_limit init_batch_limit bounds.length)

/-- Embedding of `optimize_acqf_and_get_suggested_query` (utils.py lines
129-166): call the multi-start optimizer with all restart results
retained, detach the candidates, and return the best-scoring one. -/
def optimize_acqf_and_get_suggested_query {V : Type} [LinearOrder V]
    (optimize_acqf : List (V × V) → AcqOptArgs → List (Cand V) × List V)
    (bounds : List (V × V)) (batch_size batch_limit init_batch_limit : Nat) :
    Cand V :=
  let result := optimize_acqf_call optimize_acqf bounds batch_size
    batch_limit init_batch_limit
  let candidates := result.1.map detachCand
  let acq_values := result.2
  get_best_candidates candidates acq_values

/-- C9: the optimizer is invoked with `num_restarts = 4*input_dim`,
`raw_samples = 120*input_dim` and `return_best_only = False` (all
restart results retained); assuming the external optimizer meets its
contract (one candidate and one value per restart, candidates of shape
`(q, input_dim)` within bounds), the returned batch is detached, has
shape `(batch_size, input_dim)`, lies within bounds, and is the
candidate at the index of the maximal acquisition value. -/
theorem optimize_acqf_and_get_suggested_query_spec {V : Type} [LinearOrder V]
    (optimize_acqf : List (V × V) → AcqOptArgs → List (Cand V) × List V)
    (bounds : List (V × V)) (batch_size batch_limit init_batch_limit : Nat)
    (hdim : 0 < bounds.length)
    (hopt : ∀ args : AcqOptArgs,
      (optimize_acqf bounds args).1.length = args.num_restarts
      ∧ (optimize_acqf bounds args).2.length = args.num_restarts
      ∧ ∀ c ∈ (optimize_acqf bounds args).1,
          c.data.length = args.q
          ∧ ∀ row ∈ c.data, row.length = bounds.length
            ∧ ∀ (k : Nat) (p : V × V) (x : V), bounds[k]? = some p →
                row[k]? = some x → p.1 ≤ x ∧ x ≤ p.2) :
    (acqCallArgs batch_size batch_limit init_batch_limit bounds.length).num_restarts
        = 4 * bounds.length
    ∧ (acqCallArgs batch_size batch_limit init_batch_limit bounds.length).raw_samples
        = 120 * bounds.length
    ∧ (acqCallArgs batch_size batch_limit init_batch_limit bounds.length).return_best_only
        = false
    ∧ optimize_acqf_and_get_suggested_query optimize_acqf bounds batch_size
          batch_limit init_batch_limit
        = get_best_candidates
            ((optimize_acqf_call optimize_acqf bounds batch_size batch_limit
                init_batch_limit).1.map detachCand)
            (optimize_acqf_call optimize_acqf bounds batch_size batch_limit
                init_batch_limit).2
    ∧ (optimize_acqf_and_get_suggested_query optimize_acqf bounds batch_size
          batch_limit init_batch_limit).tracksGrad = false
    ∧ (optimize_acqf_and_get_suggested_query optimize_acqf bounds batch_size
          batch_limit init_batch_limit).data.length = batch_size
    ∧ (∀ row ∈ (optimize_acqf_and_get_suggested_query optimize_acqf bounds
          batch_size batch_limit init_batch_limit).data,
        row.length = bounds.length
        ∧ ∀ (k : Nat) (p : V × V) (x : V), bounds[k]? = some p →
            row[k]? = some x → p.1 ≤ x ∧ x ≤ p.2)
    ∧ ∃ m : V,
        (optimize_acqf_call optimize_acqf bounds batch_size batch_limit
            init_batch_limit).2[argmaxRow (optimize_acqf_call optimize_acqf
            bounds batch_size batch_limit init_batch_limit).2]? = some m
        ∧ ((optimize_acqf_call optimize_acqf bounds batch_size batch_limit
            init_batch_limit).1.map detachCand)[argmaxRow (optimize_acqf_call
            optimize_acqf bounds batch_size batch_limit init_batch_limit).2]?
          = some (optimize_acqf_and_get_suggested_query optimize_acqf bounds
              batch_size batch_limit init_batch_limit)
        ∧ ∀ (k : Nat) (v : V),
            (optimize_acqf_call optimize_acqf bounds batch_size batch_limit
              init_batch_limit).2[k]? = some v → v ≤ m := by
  obtain ⟨hlen1, hlen2, hc⟩ :=
    hopt (acqCallArgs batch_size batch_limit init_batch_limit bounds.length)
  have hnr : (optimize_acqf_call optimize_acqf bounds batch_size batch_limit
      init_batch_limit).1.length = 4 * bounds.length := hlen1
  have hvlen : (optimize_acqf_call optimize_acqf bounds batch_size batch_limit
      init_batch_limit).2.length = 4 * bounds.length := hlen2
  have hvne : (optimize_acqf_call optimize_acqf bounds batch_size batch_limit
      init_batch_limit).2 ≠ [] := by
    apply List.ne_nil_of_length_pos
    rw [hvlen]
    omega
  obtain ⟨hmlt, m, hmget, hmax, _⟩ := argmaxRow_spec _ hvne
  have hclt : argmaxRow (optimize_acqf_call optimize_acqf bounds batch_size
      batch_limit init_batch_limit).2 < (optimize_acqf_call optimize_acqf
      bounds batch_size batch_limit init_batch_limit).1.length := by
    rw [hnr]
    rw [hvlen] at hmlt
    exact hmlt
  have hmaplt : argmaxRow (optimize_acqf_call optimize_acqf bounds batch_size
      batch_limit init_batch_limit).2 < ((optimize_acqf_call optimize_acqf
      bounds batch_size batch_limit init_batch_limit).1.map detachCand).length := by
    rw [List.length_map]
    exact hclt
  have hres : optimize_acqf_and_get_suggested_query optimize_acqf bounds
      batch_size batch_limit init_batch_limit
      = detachCand ((optimize_acqf_call optimize_acqf bounds batch_size
          batch_limit init_batch_limit).1[argmaxRow (optimize_acqf_call
          optimize_acqf bounds batch_size batch_limit init_batch_limit).2]) := by
    show get_best_candidates _ _ = _
    rw [get_best_candidates, List.getD_eq_getElem _ _ hmaplt, List.getElem_map]
  have hmem : (optimize_acqf_call optimize_acqf bounds batch_size batch_limit
      init_batch_limit).1[argmaxRow (optimize_acqf_call optimize_acqf bounds
      batch_size batch_limit init_batch_limit).2]
      ∈ (optimize_acqf_call optimize_acqf bounds batch_size batch_limit
          init_batch_limit).1 := List.getElem_mem hclt
  obtain ⟨hqlen, hrows⟩ := hc _ hmem
  refine ⟨rfl, rfl, rfl, rfl, ?_, ?_, ?_, ?_⟩
  · rw [hres]
    rfl
  · rw [hres]
    exact hqlen
  · intro row hrow
    rw [hres] at hrow
    exact hrows row hrow
  · refine ⟨m, hmget, ?_, fun k v hv => hmax k v hv⟩
    rw [hres, List.getElem?_map, List.getElem?_eq_getElem hclt, Option.map_some']

/-- A concrete optimizer meeting the contract: every restart returns the
lower-bound corner batch, with acquisition value `0`. -/
def constOptimizer : List (Int × Int) → AcqOptArgs → List (Cand Int) × List Int :=
  fun bounds args =>
    (List.replicate args.num_restarts
        ⟨List.replicate args.q (bounds.map Prod.fst), true⟩,
     List.replicate args.num_restarts 0)

/-- The concrete optimizer satisfies the optimizer contract on the
bounds `[(0, 1)]`. -/
theorem constOptimizer_contract :
    ∀ args : AcqOptArgs,
      (constOptimizer [((0 : Int), 1)] args).1.length = args.num_restarts
      ∧ (constOptimizer [((0 : Int), 1)] args).2.length = args.num_restarts
      ∧ ∀ c ∈ (constOptimizer [((0 : Int), 1)] args).1,
          c.data.length = args.q
          ∧ ∀ row ∈ c.data, row.length = [((0 : Int), 1)].length
            ∧ ∀ (k : Nat) (p : Int × Int) (x : Int),
                [((0 : Int), 1)][k]? = some p → row[k]? = some x →
                  p.1 ≤ x ∧ x ≤ p.2 := by
  intro args
  refine ⟨List.length_replicate _ _, List.length_replicate _ _, ?_⟩
  intro c hc
  simp only [constOptimizer] at hc
  rw [List.mem_replicate] at hc
  rw [hc.2]
  refine ⟨List.length_replicate _ _, ?_⟩
  intro row hrow
  rw [List.mem_replicate] at hrow
  rw [hrow.2]
  refine ⟨rfl, ?_⟩
  intro k p x hp hx
  match k with
  | 0 =>
    have hp' : p = ((0 : Int), 1) := by simpa using hp.symm
    have hx' : x = (0 : Int) := by simpa using hx.symm
    rw [hp', hx']
    exact ⟨le_refl 0, by omega⟩
  | k + 1 =>
    simp at hp

/-- Witness for C9: the concrete optimizer on bounds `[(0, 1)]` with
`batch_size = 1` and the default batch limits. -/
theorem optimize_acqf_and_get_suggested_query_spec_witness :
    (acqCallArgs 1 4 20 [((0 : Int), 1)].length).num_restarts
        = 4 * [((0 : Int), 1)].length
    ∧ (acqCallArgs 1 4 20 [((0 : Int), 1)].length).raw_samples
        = 120 * [((0 : Int), 1)].length
    ∧ (acqCallArgs 1 4 20 [((0 : Int), 1)].length).return_best_only = false
    ∧ optimize_acqf_and_get_suggested_query constOptimizer [((0 : Int), 1)] 1 4 20
        = get_best_candidates
            ((optimize_acqf_call constOptimizer [((0 : Int), 1)] 1 4 20).1.map
                detachCand)
            (optimize_acqf_call constOptimizer [((0 : Int), 1)] 1 4 20).2
    ∧ (optimize_acqf_and_get_suggested_query constOptimizer
          [((0 : Int), 1)] 1 4 20).tracksGrad = false
    ∧ (optimize_acqf_and_get_suggested_query constOptimizer
          [((0 : Int), 1)] 1 4 20).data.length = 1
    ∧ (∀ row ∈ (optimize_acqf_and_get_suggested_query constOptimizer
          [((0 : Int), 1)] 1 4 20).data,
        row.length = [((0 : Int), 1)].length
        ∧ ∀ (k : Nat) (p : Int × Int) (x : Int),
            [((0 : Int), 1)][k]? = some p → row[k]? = some x →
              p.1 ≤ x ∧ x ≤ p.2)
    ∧ ∃ m : Int,
        (optimize_acqf_call constOptimizer [((0 : Int), 1)] 1 4 20).2[argmaxRow
            (optimize_acqf_call constOptimizer [((0 : Int), 1)] 1 4 20).2]? = some m
        ∧ ((optimize_acqf_call constOptimizer [((0 : Int), 1)] 1 4 20).1.map
              detachCand)[argmaxRow (optimize_acqf_call constOptimizer
              [((0 : Int), 1)] 1 4 20).2]?
            = some (optimize_acqf_and_get_suggested_query constOptimizer
                [((0 : Int), 1)] 1 4 20)
        ∧ ∀ (k : Nat) (v : Int),
            (optimize_acqf_call constOptimizer [((0 : Int), 1)] 1 4 20).2[k]?
              = some v → v ≤ m :=
  optimize_acqf_and_get_suggested_query_spec constOptimizer [((0 : Int), 1)]
    1 4 20 (by decide) constOptimizer_contract

end KGPBO
